import Mathlib

/-!
Verification of the synthetic network traffic generator (main.py,
class NetworkTrafficGenerator and its helpers).

Embedding conventions:
- Python floats are modelled as rationals; the random draws that numpy
  produces (lognormal, beta, uniform) are passed to each function as
  explicit arguments, since they are values of the process-wide random
  source and any number in the support can occur.
- numpy randint(low, high) returns a uniform integer in [low, high)
  (high exclusive); it is modelled as low + u % (high - low), where u
  ranges over all naturals, so the image is exactly [low, high).
- numpy choice over a list of k items is modelled as indexing by u % k.
- Python int() truncates toward zero; round(x, n) rounds half to even
  at n decimal digits.
- Python strings are modelled as lists of character codes (Str), so
  string operations such as startswith stay executable in proofs.
- Timestamps are modelled as absolute hour counts; the day index t / 24
  stands for the formatted calendar date (the strftime formats used by
  the source are injective per day, which is all the proofs depend on).
-/

namespace NTG

/-- A Python string, as its sequence of character codes. -/
abbrev Str := List ℕ

/-- Python str.startswith: second argument is the candidate leading piece. -/
def startsWithL : Str → Str → Bool
  | _, [] => true
  | [], _ :: _ => false
  | c :: s, d :: p => if c = d then startsWithL s p else false

/-- Python int() applied to a rational: truncation toward zero. -/
def pyTrunc (q : ℚ) : ℤ :=
  if q < 0 then -⌊-q⌋ else ⌊q⌋

/-- Round a rational to the nearest integer, halves to even (Python round). -/
def roundHalfEven (q : ℚ) : ℤ :=
  if q - ⌊q⌋ < 1/2 then ⌊q⌋
  else if 1/2 < q - ⌊q⌋ then ⌊q⌋ + 1
  else if ⌊q⌋ % 2 = 0 then ⌊q⌋ else ⌊q⌋ + 1

/-- Python round(q, n): round half to even at n decimal digits. -/
def pyRound (q : ℚ) (n : ℕ) : ℚ :=
  (roundHalfEven (q * 10 ^ n) : ℚ) / 10 ^ n

lemma pyTrunc_nonneg {q : ℚ} (h : 0 ≤ q) : 0 ≤ pyTrunc q := by
  unfold pyTrunc
  rw [if_neg (not_lt.2 h)]
  exact Int.floor_nonneg.2 h

lemma one_le_pyTrunc {q : ℚ} (h : 1 ≤ q) : 1 ≤ pyTrunc q := by
  unfold pyTrunc
  rw [if_neg (not_lt.2 (le_trans zero_le_one h))]
  exact Int.le_floor.2 (by exact_mod_cast h)

/-- numpy randint(low, high): uniform integer in [low, high), high exclusive;
u is the underlying uniform draw. -/
def npRandint (low high u : ℕ) : ℕ := low + u % (high - low)

/-- Hourly load factor from generate_traffic_metrics:
1.5 for business hours 9-17, 1.3 for evening 18-23, else 0.7. -/
def timeMultiplier (hour : ℕ) : ℚ :=
  if 9 ≤ hour ∧ hour ≤ 17 then 3/2
  else if 18 ≤ hour ∧ hour ≤ 23 then 13/10
  else 7/10

lemma timeMultiplier_pos (hour : ℕ) : 0 < timeMultiplier hour := by
  unfold timeMultiplier
  split_ifs <;> norm_num

/-- The four continuous random draws consumed by generate_traffic_metrics,
in consumption order: lognormal(10,1), lognormal(2,0.5), lognormal(2,0.5),
beta(1,30). -/
structure MetricDraws where
  bytesDraw : ℚ
  durationDraw : ℚ
  latencyDraw : ℚ
  lossDraw : ℚ
deriving DecidableEq

/-- The dictionary returned by generate_traffic_metrics. -/
structure Metrics where
  bytes : ℤ
  packets : ℤ
  duration : ℚ
  latency : ℚ
  packet_loss : ℚ
deriving DecidableEq

/-- NetworkTrafficGenerator.generate_traffic_metrics (main.py lines 155-170),
with the timestamp reduced to its hour and the random draws explicit. -/
def generate_traffic_metrics (hour : ℕ) (event_impact : ℚ) (d : MetricDraws) : Metrics :=
  let base_bytes := d.bytesDraw * 1000
  let base_packets := max 1 (pyTrunc (base_bytes / 1460))
  let base_duration := d.durationDraw / 1000
  let time_multiplier := timeMultiplier hour
  let final_multiplier := time_multiplier * event_impact
  { bytes := pyTrunc (base_bytes * final_multiplier)
    packets := pyTrunc ((base_packets : ℚ) * final_multiplier)
    duration := pyRound (base_duration * final_multiplier) 3
    latency := pyRound d.latencyDraw 3
    packet_loss := pyRound (d.lossDraw * 100) 4 }

/-- One CIDR block of an address pool: network base address (as a 32-bit
integer value) and total address count of the block. -/
structure CidrBlock where
  base : ℕ
  numAddresses : ℕ
deriving DecidableEq

/-- Dotted-quad IPv4 address as an integer. -/
def ipv4 (a b c d : ℕ) : ℕ := ((a * 256 + b) * 256 + c) * 256 + d

/-- The three named address pools of NetworkTrafficGenerator.ip_ranges. -/
inductive PoolName
  | qatar_isps
  | data_centers
  | cdns
deriving DecidableEq

/-- self.ip_ranges (main.py lines 138-142), each CIDR string replaced by its
network base and size: a /p block holds 2 ^ (32 - p) addresses. -/
def ip_ranges : PoolName → List CidrBlock
  | .qatar_isps =>
      [⟨ipv4 178 152 0 0, 2 ^ 17⟩, ⟨ipv4 37 208 0 0, 2 ^ 19⟩, ⟨ipv4 82 148 96 0, 2 ^ 13⟩]
  | .data_centers =>
      [⟨ipv4 185 176 0 0, 2 ^ 16⟩, ⟨ipv4 157 167 0 0, 2 ^ 16⟩]
  | .cdns =>
      [⟨ipv4 104 16 0 0, 2 ^ 20⟩, ⟨ipv4 199 27 128 0, 2 ^ 11⟩]

lemma ip_ranges_length_pos (p : PoolName) : 0 < (ip_ranges p).length := by
  cases p <;> simp [ip_ranges]

/-- NetworkTrafficGenerator.generate_ip (main.py lines 150-153):
pick a CIDR block uniformly, then a host offset by
np.random.randint(0, num_addresses - 1), which is uniform on
[0, num_addresses - 2] because the upper bound is exclusive. -/
def generate_ip (p : PoolName) (choiceU hostU : ℕ) : ℕ :=
  let blocks := ip_ranges p
  let network := blocks.get ⟨choiceU % blocks.length, Nat.mod_lt _ (ip_ranges_length_pos p)⟩
  network.base + hostU % (network.numAddresses - 1)

/-- list(self.common_ports.values()) in insertion order. -/
def destPorts : List ℕ := [80, 443, 53, 1935, 3074]

/-- np.random.choice over the five dest ports, uniform. -/
def destPortDraw (u : ℕ) : ℕ :=
  destPorts.get ⟨u % destPorts.length, Nat.mod_lt _ (by norm_num [destPorts])⟩

/-- np.random.choice over protocol names with p = [0.75, 0.20, 0.05],
by cumulative threshold on a uniform [0,1) draw. -/
def drawProtocol (u : ℚ) : String :=
  if u < 3/4 then "TCP" else if u < 19/20 then "UDP" else "ICMP"

/-- An event record as consumed by generate_traffic_data: the date_range
text scraped for the event, and the impact score added by the analyzer
(absent when the scoring step did not run for the event). -/
structure Event where
  date_range : Str
  impact_score : Option ℚ
deriving DecidableEq

/-- Python max(list, default=d): d only when the list is empty. -/
def pyMaxD : List ℚ → ℚ → ℚ
  | [], d => d
  | x :: xs, _ => xs.foldl max x

/-- Lines 179-180 of main.py: filter events whose date_range starts with the
current date string, then take the max impact_score with .get default 1.0
and max default 1.0. -/
def eventImpact (events : List Event) (dateStr : Str) : ℚ :=
  pyMaxD (((events.filter fun e => startsWithL e.date_range dateStr).map
    fun e => e.impact_score.getD 1)) 1

/-- Digit-code list for a two-digit zero-padded number. -/
def twoDigits (n : ℕ) : Str := [48 + n / 10 % 10, 48 + n % 10]

/-- Digit-code list for a four-digit zero-padded number. -/
def fourDigits (n : ℕ) : Str :=
  [48 + n / 1000 % 10, 48 + n / 100 % 10, 48 + n / 10 % 10, 48 + n % 10]

/-- ISO date string YYYY-MM-DD as character codes (45 is the dash). -/
def isoDate (y m d : ℕ) : Str := fourDigits y ++ [45] ++ twoDigits m ++ [45] ++ twoDigits d

/-- A date_range of the form "<start> - <end>" (32 45 32 is " - "). -/
def dateRangeStr (y1 m1 d1 y2 m2 d2 : ℕ) : Str :=
  isoDate y1 m1 d1 ++ [32, 45, 32] ++ isoDate y2 m2 d2

/-- Numeric value of a date string: its decimal digits concatenated, other
characters skipped; "2024-01-05" gives 20240105, so ISO dates compare by it. -/
def dateVal (s : Str) : ℕ :=
  s.foldl (fun a c => if 48 ≤ c ∧ c ≤ 57 then a * 10 + (c - 48) else a) 0

/-- Split a string at the first occurrence of a separator, if any. -/
def splitFirst : Str → Str → Option (Str × Str)
  | s, sep =>
    match s with
    | [] => if sep = [] then some ([], []) else none
    | c :: t =>
      if startsWithL (c :: t) sep = true then some ([], (c :: t).drop sep.length)
      else (splitFirst t sep).map fun p => (c :: p.1, p.2)

/-- Modelled from the spec: an event date_range of the form
"<start> - <end>" overlaps a bucket date when start <= date <= end; other
free-text ranges are read by their date prefix. The source has no such
computation; this definition follows the spec wording, for comparison with
the prefix test the source actually performs. -/
def specOverlaps (dr : Str) (dateStr : Str) : Bool :=
  match splitFirst dr [32, 45, 32] with
  | some (a, b) =>
      decide (dateVal a ≤ dateVal dateStr) && decide (dateVal dateStr ≤ dateVal b)
  | none => startsWithL dr dateStr

/-- Modelled from the spec: the impact of a bucket as the spec words it,
max impact_score over events whose date_range overlaps the bucket date. -/
def eventImpactSpec (events : List Event) (dateStr : Str) : ℚ :=
  pyMaxD (((events.filter fun e => specOverlaps e.date_range dateStr).map
    fun e => e.impact_score.getD 1)) 1

/-! Count-level model of the generation loop (main.py lines 172-208): one
step per hour bucket, tracking only how many records are in memory and the
flushed batches. The batch id is the day index of current AFTER the
one-hour increment, because the source increments current before the
flush check; day index d stands for the %Y%m%d string of day d. -/

/-- Final state of the count-level run: records still in memory, and for
each flushed file its day id and record count, in flush order. -/
structure BatchRun where
  batch : ℕ
  files : List (ℕ × ℕ)
deriving DecidableEq

/-- One hour bucket per list entry: append the bucket record count, advance
the clock, then flush everything if the threshold 50000 was reached. -/
def driveAux (t batch : ℕ) (files : List (ℕ × ℕ)) : List ℕ → BatchRun
  | [] => ⟨batch, files⟩
  | n :: rest =>
    let b := batch + n
    let t' := t + 1
    if 50000 ≤ b then driveAux t' 0 (files ++ [(t' / 24, b)]) rest
    else driveAux t' b files rest

/-- Run the count-level generation loop from a start hour. -/
def runGeneration (start : ℕ) (counts : List ℕ) : BatchRun :=
  driveAux start 0 [] counts

/-- Which buckets trigger a flush: walking the bucket counts with the
in-memory total b, bucket i triggers a flush of size b + n exactly when
appending its n records first brings the total to 50000 or more; the pair
(trigger index, flush size) is recorded and the total resets. This is the
reference description of the flush dynamics, used to tie every written
file to the bucket that triggered it. -/
def flushTriggers (b i : ℕ) : List ℕ → List (ℕ × ℕ)
  | [] => []
  | n :: rest =>
    if 50000 ≤ b + n then (i, b + n) :: flushTriggers 0 (i + 1) rest
    else flushTriggers (b + n) (i + 1) rest

/-! Record-level model of generate_traffic_data and save_batch: the full
per-record random consumption, with the process-wide numpy state modelled
as two read-once streams (integer draws and continuous draws) addressed by
counters threaded through every call in program order. -/

/-- One generated traffic record (the dict built at lines 186-197); the
timestamp keeps the absolute hour, standing for the formatted string. -/
structure TrafficRecord where
  timestamp : ℕ
  source_ip : ℕ
  dest_ip : ℕ
  source_port : ℕ
  dest_port : ℕ
  protocol : String
  bytes : ℤ
  packets : ℤ
  duration : ℚ
  latency : ℚ
  packet_loss : ℚ

/-- The column names written by csv.DictWriter, from the record dict keys
in insertion order. -/
def fieldNames : List String :=
  ["timestamp", "source_ip", "dest_ip", "source_port", "dest_port", "protocol",
   "bytes", "packets", "duration", "latency", "packet_loss"]

/-- A written CSV file: one header row, then the records in order. -/
structure CsvFile where
  header : List String
  rows : List TrafficRecord

/-- NetworkTrafficGenerator.save_batch (main.py lines 210-215): fieldnames
come from records[0].keys(), so an empty record list raises and nothing is
written; a nonempty one writes the header then every record. -/
def save_batch (records : List TrafficRecord) : Option CsvFile :=
  match records with
  | [] => none
  | r :: rest => some ⟨fieldNames, r :: rest⟩

/-- A written batch file is well formed when the write succeeded, the
header is the fixed column list and at least one record follows it. -/
def checkFile : Option CsvFile → Bool
  | none => false
  | some c => c.header == fieldNames && !c.rows.isEmpty

/-- Positions of the two random streams. -/
structure RState where
  ic : ℕ
  rc : ℕ

/-- The process-wide numpy random source, as the sequences of values its
integer draws and continuous draws produce from a given seed. -/
structure RandomSource where
  intStream : ℕ → ℕ
  realStream : ℕ → ℚ

/-- Decimal digit codes of a natural number (the %Y-%m-%d date string of
day d is modelled by the digit string of d; both are injective per day). -/
def natToStr (n : ℕ) : Str :=
  (Nat.toDigits 10 n).map Char.toNat

/-- One record of the inner loop (lines 184-198): generate_traffic_metrics
consumes four continuous draws, then the two ips consume two integer draws
each, source_port and dest_port one each, and the weighted protocol choice
one continuous draw. -/
def genRecord (rs : RandomSource) (s : RState) (t : ℕ) (impact : ℚ) :
    TrafficRecord × RState :=
  let m := generate_traffic_metrics (t % 24) impact
    ⟨rs.realStream s.rc, rs.realStream (s.rc + 1),
     rs.realStream (s.rc + 2), rs.realStream (s.rc + 3)⟩
  ({ timestamp := t
     source_ip := generate_ip .qatar_isps (rs.intStream s.ic) (rs.intStream (s.ic + 1))
     dest_ip := generate_ip .cdns (rs.intStream (s.ic + 2)) (rs.intStream (s.ic + 3))
     source_port := npRandint 1024 65535 (rs.intStream (s.ic + 4))
     dest_port := destPortDraw (rs.intStream (s.ic + 5))
     protocol := drawProtocol (rs.realStream (s.rc + 4))
     bytes := m.bytes
     packets := m.packets
     duration := m.duration
     latency := m.latency
     packet_loss := m.packet_loss }, ⟨s.ic + 6, s.rc + 5⟩)

/-- The inner for loop: n records for the bucket at hour t. -/
def genRecords (rs : RandomSource) (s : RState) (t : ℕ) (impact : ℚ) :
    ℕ → List TrafficRecord × RState
  | 0 => ([], s)
  | k + 1 =>
    let pr := genRecord rs s t impact
    let rest := genRecords rs pr.2 t impact k
    (pr.1 :: rest.1, rest.2)

/-- State of the while loop of generate_traffic_data: stream positions,
current hour, the in-memory record list, and the saved files keyed by the
day id of current at save time. -/
structure RunState where
  s : RState
  t : ℕ
  batch : List TrafficRecord
  files : List (ℕ × Option CsvFile)

/-- One iteration of the while loop (lines 177-206): compute the bucket
impact from the events, draw the record count by randint(300, 2000),
generate the records, advance current by one hour, then save and clear
the whole list if it reached 50000 records. -/
def hourStep (rs : RandomSource) (events : List Event) (st : RunState) : RunState :=
  let impact := eventImpact events (natToStr (st.t / 24))
  let n := npRandint 300 2000 (rs.intStream st.s.ic)
  let pr := genRecords rs ⟨st.s.ic + 1, st.s.rc⟩ st.t impact n
  let batch1 := st.batch ++ pr.1
  let t' := st.t + 1
  if 50000 ≤ batch1.length then
    ⟨pr.2, t', [], st.files ++ [(t' / 24, save_batch batch1)]⟩
  else
    ⟨pr.2, t', batch1, st.files⟩

/-- The while loop, one iteration per hour from start (exclusive end,
given as an hour count). -/
def runHours (rs : RandomSource) (events : List Event) (st : RunState) : ℕ → RunState
  | 0 => st
  | k + 1 => runHours rs events (hourStep rs events st) k

/-- NetworkTrafficGenerator.generate_traffic_data (main.py lines 172-208)
over the seeded random source; the final state carries the returned
leftover records and the files written along the way. -/
def generate_traffic_data (rs : RandomSource) (events : List Event)
    (start hours : ℕ) : RunState :=
  runHours rs events ⟨⟨0, 0⟩, start, [], []⟩ hours

/-! Helper lemmas. -/

lemma le_foldl_max (l : List ℚ) (x : ℚ) : x ≤ l.foldl max x := by
  induction l generalizing x with
  | nil => exact le_refl x
  | cons a l ih => exact le_trans (le_max_left x a) (ih (max x a))

lemma mem_le_foldl_max (l : List ℚ) (x y : ℚ) (hy : y ∈ l) : y ≤ l.foldl max x := by
  induction l generalizing x with
  | nil => cases hy
  | cons a l ih =>
    rcases List.mem_cons.1 hy with rfl | h
    · exact le_trans (le_max_right x y) (le_foldl_max l (max x y))
    · exact ih (max x a) h

lemma foldl_max_mem (l : List ℚ) (x : ℚ) : l.foldl max x = x ∨ l.foldl max x ∈ l := by
  induction l generalizing x with
  | nil => exact Or.inl rfl
  | cons a l ih =>
    rcases ih (max x a) with h | h
    · rcases le_total x a with hx | hx
      · right
        rw [List.foldl_cons, h, max_eq_right hx]
        exact List.mem_cons_self a l
      · left
        rw [List.foldl_cons, h, max_eq_left hx]
    · exact Or.inr (List.mem_cons_of_mem a h)

lemma le_pyMaxD {l : List ℚ} {y : ℚ} (d : ℚ) (hy : y ∈ l) : y ≤ pyMaxD l d := by
  cases l with
  | nil => cases hy
  | cons x xs =>
    rcases List.mem_cons.1 hy with rfl | h
    · exact le_foldl_max xs y
    · exact mem_le_foldl_max xs x y h

lemma pyMaxD_mem {l : List ℚ} (d : ℚ) (hl : l ≠ []) : pyMaxD l d ∈ l := by
  cases l with
  | nil => exact absurd rfl hl
  | cons x xs =>
    rcases foldl_max_mem xs x with h | h
    · show xs.foldl max x ∈ x :: xs
      rw [h]
      exact List.mem_cons_self x xs
    · exact List.mem_cons_of_mem x h

lemma driveAux_spec : ∀ (counts : List ℕ) (t b : ℕ) (fs : List (ℕ × ℕ)), b < 50000 →
    (driveAux t b fs counts).batch < 50000 ∧
    ∀ p ∈ (driveAux t b fs counts).files, p ∈ fs ∨
      (50000 ≤ p.2 ∧ ((∀ n ∈ counts, n < 2000) → p.2 < 52000) ∧
        ∃ i, i < counts.length ∧ p.1 = (t + i + 1) / 24)
  | [], _, _, fs, hb => ⟨hb, fun p hp => Or.inl hp⟩
  | n :: rest, t, b, fs, hb => by
    have hstep : driveAux t b fs (n :: rest) =
        if 50000 ≤ b + n then driveAux (t + 1) 0 (fs ++ [((t + 1) / 24, b + n)]) rest
        else driveAux (t + 1) (b + n) fs rest := rfl
    by_cases h : 50000 ≤ b + n
    · rw [hstep, if_pos h]
      obtain ⟨h1, h2⟩ :=
        driveAux_spec rest (t + 1) 0 (fs ++ [((t + 1) / 24, b + n)]) (by norm_num)
      refine ⟨h1, fun p hp => ?_⟩
      rcases h2 p hp with hin | ⟨hge, hlt, i, hi, hname⟩
      · rcases List.mem_append.1 hin with hf | hx
        · exact Or.inl hf
        · have hpx := List.mem_singleton.1 hx
          refine Or.inr ⟨?_, ?_, 0, by simp, ?_⟩
          · rw [hpx]; exact h
          · intro hall
            have := hall n (List.mem_cons_self n rest)
            rw [hpx]
            omega
          · rw [hpx]
      · refine Or.inr ⟨hge, ?_, i + 1, by simpa using Nat.succ_lt_succ hi, ?_⟩
        · intro hall
          exact hlt fun m hm => hall m (List.mem_cons_of_mem n hm)
        · rw [hname]
          congr 1
          omega
    · rw [hstep, if_neg h]
      obtain ⟨h1, h2⟩ := driveAux_spec rest (t + 1) (b + n) fs (by omega)
      refine ⟨h1, fun p hp => ?_⟩
      rcases h2 p hp with hin | ⟨hge, hlt, i, hi, hname⟩
      · exact Or.inl hin
      · refine Or.inr ⟨hge, ?_, i + 1, by simpa using Nat.succ_lt_succ hi, ?_⟩
        · intro hall
          exact hlt fun m hm => hall m (List.mem_cons_of_mem n hm)
        · rw [hname]
          congr 1
          omega

lemma driveAux_eq_flushTriggers :
    ∀ (counts : List ℕ) (t start i b : ℕ) (fs : List (ℕ × ℕ)), t = start + i →
      (driveAux t b fs counts).files =
        fs ++ (flushTriggers b i counts).map fun q => ((start + q.1 + 1) / 24, q.2)
  | [], _, _, _, _, fs, _ => by simp [driveAux, flushTriggers]
  | n :: rest, t, start, i, b, fs, ht => by
    subst ht
    have hstep : driveAux (start + i) b fs (n :: rest) =
        if 50000 ≤ b + n then
          driveAux (start + i + 1) 0 (fs ++ [((start + i + 1) / 24, b + n)]) rest
        else driveAux (start + i + 1) (b + n) fs rest := rfl
    have htrig : flushTriggers b i (n :: rest) =
        if 50000 ≤ b + n then (i, b + n) :: flushTriggers 0 (i + 1) rest
        else flushTriggers (b + n) (i + 1) rest := rfl
    by_cases h : 50000 ≤ b + n
    · rw [hstep, if_pos h, htrig, if_pos h,
        driveAux_eq_flushTriggers rest (start + i + 1) start (i + 1) 0
          (fs ++ [((start + i + 1) / 24, b + n)]) (by omega)]
      simp
    · rw [hstep, if_neg h, htrig, if_neg h]
      exact driveAux_eq_flushTriggers rest (start + i + 1) start (i + 1) (b + n) fs (by omega)

lemma ip_ranges_num_ge : ∀ (p : PoolName), ∀ b ∈ ip_ranges p, 2 ≤ b.numAddresses
  | .qatar_isps => by
    intro b hb
    simp only [ip_ranges, List.mem_cons, List.not_mem_nil, or_false] at hb
    rcases hb with rfl | rfl | rfl <;> norm_num
  | .data_centers => by
    intro b hb
    simp only [ip_ranges, List.mem_cons, List.not_mem_nil, or_false] at hb
    rcases hb with rfl | rfl <;> norm_num
  | .cdns => by
    intro b hb
    simp only [ip_ranges, List.mem_cons, List.not_mem_nil, or_false] at hb
    rcases hb with rfl | rfl <;> norm_num

lemma checkFile_save_batch {l : List TrafficRecord} (hl : l ≠ []) :
    checkFile (save_batch l) = true := by
  cases l with
  | nil => exact absurd rfl hl
  | cons r rest =>
    show checkFile (some ⟨fieldNames, r :: rest⟩) = true
    simp [checkFile]

lemma hourStep_files (rs : RandomSource) (events : List Event) (st : RunState) :
    (hourStep rs events st).files = st.files ∨
    ∃ l : List TrafficRecord, l ≠ [] ∧
      (hourStep rs events st).files = st.files ++ [((st.t + 1) / 24, save_batch l)] := by
  unfold hourStep
  by_cases hc : 50000 ≤ (st.batch ++ (genRecords rs ⟨st.s.ic + 1, st.s.rc⟩ st.t
      (eventImpact events (natToStr (st.t / 24)))
      (npRandint 300 2000 (rs.intStream st.s.ic))).1).length
  · right
    refine ⟨st.batch ++ (genRecords rs ⟨st.s.ic + 1, st.s.rc⟩ st.t
      (eventImpact events (natToStr (st.t / 24)))
      (npRandint 300 2000 (rs.intStream st.s.ic))).1, ?_, ?_⟩
    · exact List.length_pos.1 (by omega)
    · simp only [if_pos hc]
  · left
    simp only [if_neg hc]

lemma runHours_check (rs : RandomSource) (events : List Event) :
    ∀ (k : ℕ) (st : RunState), (st.files.all fun p => checkFile p.2) = true →
      (((runHours rs events st k).files).all fun p => checkFile p.2) = true
  | 0, _, h => h
  | k + 1, st, h =>
    runHours_check rs events k (hourStep rs events st) (by
      rcases hourStep_files rs events st with he | ⟨l, hl, he⟩
      · rw [he]; exact h
      · rw [he, List.all_append]
        simp [h, checkFile_save_batch hl])

/-! Claim theorems. -/

/-- C1 counterexample: at hour 0 with event impact 1.0 (inside [1.0, 2.0])
and a lognormal bytes draw of 1.46 (base_bytes = 1460, base_packets = 1),
the final multiplier is 0.7, so int(1 * 0.7) gives packets = 0, violating
packets >= 1. -/
theorem c1_cex :
    (generate_traffic_metrics 0 1 ⟨146/100, 1, 1, 0⟩).packets = 0 ∧
    ¬ (1 ≤ (generate_traffic_metrics 0 1 ⟨146/100, 1, 1, 0⟩).packets) := by
  have h : (generate_traffic_metrics 0 1 ⟨146/100, 1, 1, 0⟩).packets
      = pyTrunc ((max 1 (pyTrunc ((146/100 : ℚ) * 1000 / 1460)) : ℤ) * (timeMultiplier 0 * 1)) :=
    rfl
  have h1 : ((146 : ℚ)/100) * 1000 / 1460 = 1 := by norm_num
  rw [h1] at h
  have h2 : pyTrunc (1 : ℚ) = 1 := by norm_num [pyTrunc]
  rw [h2] at h
  have h3 : timeMultiplier 0 = 7/10 := by norm_num [timeMultiplier]
  rw [h3] at h
  have h4 : (generate_traffic_metrics 0 1 ⟨146/100, 1, 1, 0⟩).packets = 0 := by
    rw [h]; norm_num [pyTrunc]
  exact ⟨h4, by rw [h4]; decide⟩

/-- C1 amended: the packets field is always nonnegative, and is at least 1
whenever the final multiplier time_multiplier(hour) * impact is at least 1,
which holds for every hour in 9..23 with impact in [1.0, 2.0] but can fail
for hours 0..8, where the time multiplier is 0.7. -/
theorem c1_packets (hour : ℕ) (impact : ℚ) (d : MetricDraws) (hi : 1 ≤ impact) :
    0 ≤ (generate_traffic_metrics hour impact d).packets ∧
    (1 ≤ timeMultiplier hour * impact →
      1 ≤ (generate_traffic_metrics hour impact d).packets) := by
  have hpk : (generate_traffic_metrics hour impact d).packets =
      pyTrunc (((max 1 (pyTrunc (d.bytesDraw * 1000 / 1460)) : ℤ) : ℚ) *
        (timeMultiplier hour * impact)) := rfl
  have hbp : (1 : ℚ) ≤ ((max 1 (pyTrunc (d.bytesDraw * 1000 / 1460)) : ℤ) : ℚ) := by
    exact_mod_cast le_max_left 1 (pyTrunc (d.bytesDraw * 1000 / 1460))
  have hm : 0 < timeMultiplier hour * impact :=
    mul_pos (timeMultiplier_pos hour) (lt_of_lt_of_le one_pos hi)
  constructor
  · rw [hpk]
    exact pyTrunc_nonneg (mul_nonneg (le_trans zero_le_one hbp) hm.le)
  · intro h1
    rw [hpk]
    refine one_le_pyTrunc ?_
    calc (1 : ℚ) ≤ timeMultiplier hour * impact := h1
    _ = 1 * (timeMultiplier hour * impact) := (one_mul _).symm
    _ ≤ ((max 1 (pyTrunc (d.bytesDraw * 1000 / 1460)) : ℤ) : ℚ) *
          (timeMultiplier hour * impact) := mul_le_mul_of_nonneg_right hbp hm.le

/-- C1 witness: at hour 10 with impact 1.0 the final multiplier is 1.5, so
the amended bound gives packets >= 1. -/
theorem c1_packets_witness : 1 ≤ (generate_traffic_metrics 10 1 ⟨1, 1, 1, 0⟩).packets :=
  (c1_packets 10 1 ⟨1, 1, 1, 0⟩ (by norm_num)).2 (by norm_num [timeMultiplier])

/-- Hourly record counts for the C2 counterexample: 30 hours of 1670, then
25 hours of 1900, then 2 hours of 1200. All counts lie in [300, 1999] and
the total is exactly 100000 = 2 * 50000. -/
def c2Counts : List ℕ :=
  List.replicate 30 1670 ++ List.replicate 25 1900 ++ List.replicate 2 1200

/-- C2 counterexample: a run producing exactly 2 * 50000 records in which
the only flush carries 50100 records (more than the threshold held in
memory at once, and not exactly the threshold), and 49900 records remain
in memory at the end, so the run does not trigger two flushes of exactly
50000 records each with nothing remaining. -/
theorem c2_cex :
    (∀ n ∈ c2Counts, 300 ≤ n ∧ n ≤ 1999) ∧
    c2Counts.sum = 2 * 50000 ∧
    runGeneration 0 c2Counts = ⟨49900, [(1, 50100)]⟩ ∧
    (50100 : ℕ) ≠ 50000 ∧ (49900 : ℕ) ≠ 0 := by decide

/-- C2 amended: the flush check runs once per hour bucket, after the whole
bucket was appended, and flushes the entire in-memory list; thus with every
bucket count below 2000 (the randint bound) each flushed batch holds at
least 50000 and fewer than 52000 records, the in-memory batch is empty
right after a flush and holds fewer than 50000 records at every bucket
boundary, including the end of the run. -/
theorem c2_batching (start : ℕ) (counts : List ℕ) (hc : ∀ n ∈ counts, n < 2000) :
    (runGeneration start counts).batch < 50000 ∧
    ∀ p ∈ (runGeneration start counts).files, 50000 ≤ p.2 ∧ p.2 < 52000 := by
  obtain ⟨h1, h2⟩ := driveAux_spec counts start 0 [] (by norm_num)
  refine ⟨h1, fun p hp => ?_⟩
  rcases h2 p hp with hin | ⟨hge, hlt, _⟩
  · cases hin
  · exact ⟨hge, hlt hc⟩

/-- C2 witness: the amended bounds instantiated on a concrete run of 48
buckets of 1060 records, whose single flush carries 50880 records. -/
theorem c2_batching_witness :
    (runGeneration 0 (List.replicate 48 1060)).batch < 50000 ∧
    (50000 ≤ ((2, 50880) : ℕ × ℕ).2 ∧ ((2, 50880) : ℕ × ℕ).2 < 52000) :=
  ⟨(c2_batching 0 (List.replicate 48 1060) (by decide)).1,
   (c2_batching 0 (List.replicate 48 1060) (by decide)).2 (2, 50880) (by decide)⟩

/-- C3 counterexample: an event whose date_range is
"2024-01-05 - 2024-01-10" with impact_score 2.0 overlaps the bucket date
2024-01-07 in the calendar sense the claim states, yet the code computes
impact 1.0 for that bucket, because it only tests whether the date_range
string starts with the bucket date. -/
theorem c3_cex :
    eventImpact [⟨dateRangeStr 2024 1 5 2024 1 10, some 2⟩] (isoDate 2024 1 7) = 1 ∧
    eventImpactSpec [⟨dateRangeStr 2024 1 5 2024 1 10, some 2⟩] (isoDate 2024 1 7) = 2 ∧
    (1 : ℚ) ≠ 2 :=
  ⟨rfl, rfl, by norm_num⟩

/-- C3 amended: the impact multiplier of a bucket equals the maximum of
impact_score (default 1.0 when absent) over the events whose date_range
string STARTS WITH the bucket date, and equals 1.0 when no event matches;
the computation is a total function of the event list, so malformed data
never aborts the run. -/
theorem c3_impact (events : List Event) (dateStr : Str) :
    ((events.filter fun e => startsWithL e.date_range dateStr) = [] →
      eventImpact events dateStr = 1) ∧
    ∀ e ∈ events, startsWithL e.date_range dateStr = true →
      e.impact_score.getD 1 ≤ eventImpact events dateStr ∧
      ∃ eM ∈ events, startsWithL eM.date_range dateStr = true ∧
        eventImpact events dateStr = eM.impact_score.getD 1 := by
  constructor
  · intro h
    unfold eventImpact
    rw [h]
    rfl
  · intro e he hpre
    have hmem : e ∈ events.filter fun e => startsWithL e.date_range dateStr :=
      List.mem_filter.2 ⟨he, hpre⟩
    have hmem2 : e.impact_score.getD 1 ∈
        (events.filter fun e => startsWithL e.date_range dateStr).map
          fun e => e.impact_score.getD 1 :=
      List.mem_map_of_mem _ hmem
    refine ⟨le_pyMaxD 1 hmem2, ?_⟩
    have hne : ((events.filter fun e => startsWithL e.date_range dateStr).map
        fun e => e.impact_score.getD 1) ≠ [] := by
      intro hnil
      rw [hnil] at hmem2
      cases hmem2
    have hmax := pyMaxD_mem 1 hne
    obtain ⟨eM, hM, hval⟩ := List.mem_map.1 hmax
    obtain ⟨hM1, hM2⟩ := List.mem_filter.1 hM
    exact ⟨eM, hM1, hM2, hval.symm⟩

/-- C3 witness: a matching event with score 2.0 on its start date, where
the code impact is bounded below by the score and attained at it. -/
theorem c3_impact_witness :
    (2 : ℚ) ≤ eventImpact [⟨dateRangeStr 2024 1 5 2024 1 10, some 2⟩] (isoDate 2024 1 5) ∧
    ∃ eM ∈ ([⟨dateRangeStr 2024 1 5 2024 1 10, some 2⟩] : List Event),
      startsWithL eM.date_range (isoDate 2024 1 5) = true ∧
      eventImpact [⟨dateRangeStr 2024 1 5 2024 1 10, some 2⟩] (isoDate 2024 1 5)
        = eM.impact_score.getD 1 :=
  (c3_impact [⟨dateRangeStr 2024 1 5 2024 1 10, some 2⟩] (isoDate 2024 1 5)).2
    ⟨dateRangeStr 2024 1 5 2024 1 10, some 2⟩ (List.mem_singleton.2 rfl) rfl

/-- C4 counterexample: with 48 buckets of 1060 records starting at hour 0,
the threshold is reached while processing the bucket at absolute hour 47,
which lies on day 47 / 24 = 1; yet the file is saved under day id 2,
because current is incremented to hour 48 before the flush check names the
file. -/
theorem c4_cex :
    (runGeneration 0 (List.replicate 48 1060)).files = [(2, 50880)] ∧
    47 / 24 = 1 ∧ (2 : ℕ) ≠ 1 := by decide

/-- C4 amended: the written files of a run are EXACTLY its flush triggers
(the buckets whose appended records first bring the in-memory total to the
threshold, with the flushed sizes), each named for the day of the hour
bucket immediately AFTER the triggering bucket (current after the one-hour
increment); that day coincides with the day of the triggering bucket
except when the triggering bucket is the last hour of its day (hour 23),
in which case the file is named for the next day. -/
theorem c4_filename (start : ℕ) (counts : List ℕ) :
    (runGeneration start counts).files =
      (flushTriggers 0 0 counts).map (fun q => ((start + q.1 + 1) / 24, q.2)) ∧
    ∀ q ∈ flushTriggers 0 0 counts,
      ((start + q.1) % 24 ≠ 23 → (start + q.1 + 1) / 24 = (start + q.1) / 24) ∧
      ((start + q.1) % 24 = 23 → (start + q.1 + 1) / 24 = (start + q.1) / 24 + 1) := by
  constructor
  · have h := driveAux_eq_flushTriggers counts start start 0 0 [] (by omega)
    simpa [runGeneration] using h
  · intro q _
    constructor <;> intro h <;> omega

/-- C4 witness: on the run of 48 buckets of 1060 records the file list is
exactly the renamed trigger list, and the only trigger, at hour 47 = 23
mod 24, is filed under the next day, 48 / 24 = 2. -/
theorem c4_filename_witness :
    (runGeneration 0 (List.replicate 48 1060)).files =
      (flushTriggers 0 0 (List.replicate 48 1060)).map
        (fun q => ((0 + q.1 + 1) / 24, q.2)) ∧
    (((0 + 47) % 24 ≠ 23 → (0 + 47 + 1) / 24 = (0 + 47) / 24) ∧
     ((0 + 47) % 24 = 23 → (0 + 47 + 1) / 24 = (0 + 47) / 24 + 1)) :=
  ⟨(c4_filename 0 (List.replicate 48 1060)).1,
   (c4_filename 0 (List.replicate 48 1060)).2 (47, 50880) (by decide)⟩

/-- C5 counterexample: np.random.randint(300, 2000) excludes its upper
bound, so the per-bucket record count 2000 can never be drawn, refuting a
uniform draw over the inclusive range [300, 2000]. -/
theorem c5_cex : ¬ ∃ u : ℕ, npRandint 300 2000 u = 2000 := by
  rintro ⟨u, hu⟩
  have h : u % (2000 - 300) < 2000 - 300 := Nat.mod_lt u (by norm_num)
  unfold npRandint at hu
  omega

/-- C5 amended: the per-bucket record count is uniform over the inclusive
range [300, 1999] (every such value attainable, none other), so a
two-bucket run totals between 600 and 3998 records, within the claimed
600..4000. -/
theorem c5_counts :
    (∀ u : ℕ, 300 ≤ npRandint 300 2000 u ∧ npRandint 300 2000 u ≤ 1999) ∧
    (∀ v, 300 ≤ v → v ≤ 1999 → ∃ u, npRandint 300 2000 u = v) ∧
    (∀ u₁ u₂ : ℕ, 600 ≤ npRandint 300 2000 u₁ + npRandint 300 2000 u₂ ∧
      npRandint 300 2000 u₁ + npRandint 300 2000 u₂ ≤ 3998) := by
  have key : ∀ u : ℕ, 300 ≤ npRandint 300 2000 u ∧ npRandint 300 2000 u ≤ 1999 := by
    intro u
    have h : u % (2000 - 300) < 2000 - 300 := Nat.mod_lt u (by norm_num)
    unfold npRandint
    omega
  refine ⟨key, ?_, ?_⟩
  · intro v h1 h2
    refine ⟨v - 300, ?_⟩
    unfold npRandint
    have h : (v - 300) % (2000 - 300) = v - 300 := Nat.mod_eq_of_lt (by omega)
    omega
  · intro u₁ u₂
    have k1 := key u₁
    have k2 := key u₂
    omega

/-- C5 witness: 1999 is an attainable per-bucket count. -/
theorem c5_counts_witness : ∃ u, npRandint 300 2000 u = 1999 :=
  c5_counts.2.1 1999 (by norm_num) (by norm_num)

/-- C6 counterexample: np.random.randint(1024, 65535) excludes its upper
bound, so source port 65535 can never be drawn, refuting the claim that
every value of [1024, 65535] is possible. -/
theorem c6_cex : ¬ ∃ u : ℕ, npRandint 1024 65535 u = 65535 := by
  rintro ⟨u, hu⟩
  have h : u % (65535 - 1024) < 65535 - 1024 := Nat.mod_lt u (by norm_num)
  unfold npRandint at hu
  omega

/-- C6 amended: source_port is uniform over the inclusive range
[1024, 65534]: every drawn port lies in it and every value in it,
including 65534 but not 65535, is a possible draw. -/
theorem c6_ports :
    (∀ u : ℕ, 1024 ≤ npRandint 1024 65535 u ∧ npRandint 1024 65535 u ≤ 65534) ∧
    (∀ v, 1024 ≤ v → v ≤ 65534 → ∃ u, npRandint 1024 65535 u = v) := by
  constructor
  · intro u
    have h : u % (65535 - 1024) < 65535 - 1024 := Nat.mod_lt u (by norm_num)
    unfold npRandint
    omega
  · intro v h1 h2
    refine ⟨v - 1024, ?_⟩
    unfold npRandint
    have h : (v - 1024) % (65535 - 1024) = v - 1024 := Nat.mod_eq_of_lt (by omega)
    omega

/-- C6 witness: 65534 is an attainable source port. -/
theorem c6_ports_witness : ∃ u, npRandint 1024 65535 u = 65534 :=
  c6_ports.2 65534 (by norm_num) (by norm_num)

/-- C7: every address produced by generate_ip lies inside one of the
chosen pool blocks, strictly below the last address of that block (offset
numAddresses - 1), because the host offset is drawn from
randint(0, num_addresses - 1), whose upper bound is exclusive. -/
theorem c7_ip (p : PoolName) (choiceU hostU : ℕ) :
    ∃ b ∈ ip_ranges p, b.base ≤ generate_ip p choiceU hostU ∧
      generate_ip p choiceU hostU < b.base + (b.numAddresses - 1) := by
  have hmem : (ip_ranges p).get
      ⟨choiceU % (ip_ranges p).length, Nat.mod_lt _ (ip_ranges_length_pos p)⟩ ∈
        ip_ranges p := List.get_mem _ _ _
  refine ⟨_, hmem, Nat.le_add_right _ _, ?_⟩
  have h2 : 2 ≤ ((ip_ranges p).get
      ⟨choiceU % (ip_ranges p).length, Nat.mod_lt _ (ip_ranges_length_pos p)⟩).numAddresses :=
    ip_ranges_num_ge p _ hmem
  have hh : hostU % (((ip_ranges p).get
      ⟨choiceU % (ip_ranges p).length,
        Nat.mod_lt _ (ip_ranges_length_pos p)⟩).numAddresses - 1) <
      ((ip_ranges p).get ⟨choiceU % (ip_ranges p).length,
        Nat.mod_lt _ (ip_ranges_length_pos p)⟩).numAddresses - 1 :=
    Nat.mod_lt hostU (by omega)
  have hgen : generate_ip p choiceU hostU =
      ((ip_ranges p).get ⟨choiceU % (ip_ranges p).length,
        Nat.mod_lt _ (ip_ranges_length_pos p)⟩).base +
      hostU % (((ip_ranges p).get ⟨choiceU % (ip_ranges p).length,
        Nat.mod_lt _ (ip_ranges_length_pos p)⟩).numAddresses - 1) := rfl
  rw [hgen]
  omega

/-- C8: with the random draws held fixed, latency equals the lognormal
latency draw rounded to 3 digits regardless of hour and impact, while
bytes, packets and duration are exactly the pre-rounding base quantities
multiplied by final_multiplier = time_multiplier(hour) * impact before
truncation or rounding. -/
theorem c8_latency (d : MetricDraws) (h₁ h₂ : ℕ) (i₁ i₂ : ℚ) :
    (generate_traffic_metrics h₁ i₁ d).latency = (generate_traffic_metrics h₂ i₂ d).latency ∧
    (generate_traffic_metrics h₁ i₁ d).latency = pyRound d.latencyDraw 3 ∧
    (generate_traffic_metrics h₁ i₁ d).bytes
      = pyTrunc (d.bytesDraw * 1000 * (timeMultiplier h₁ * i₁)) ∧
    (generate_traffic_metrics h₁ i₁ d).packets
      = pyTrunc (((max 1 (pyTrunc (d.bytesDraw * 1000 / 1460)) : ℤ) : ℚ) *
          (timeMultiplier h₁ * i₁)) ∧
    (generate_traffic_metrics h₁ i₁ d).duration
      = pyRound (d.durationDraw / 1000 * (timeMultiplier h₁ * i₁)) 3 :=
  ⟨rfl, rfl, rfl, rfl, rfl⟩

/-- C9: generation is deterministic given the seed: if two random sources
produce the same draw sequences (same seed) and the event calendar, start
and length of the run coincide, the two runs produce identical states:
the same record sequences, in memory and in every written file. -/
theorem c9_determinism (rs₁ rs₂ : RandomSource) (ev₁ ev₂ : List Event)
    (start₁ start₂ hours₁ hours₂ : ℕ)
    (hints : ∀ k, rs₁.intStream k = rs₂.intStream k)
    (hreals : ∀ k, rs₁.realStream k = rs₂.realStream k)
    (hev : ev₁ = ev₂) (hstart : start₁ = start₂) (hhours : hours₁ = hours₂) :
    generate_traffic_data rs₁ ev₁ start₁ hours₁ =
      generate_traffic_data rs₂ ev₂ start₂ hours₂ := by
  obtain ⟨f₁, g₁⟩ := rs₁
  obtain ⟨f₂, g₂⟩ := rs₂
  have hf : f₁ = f₂ := funext hints
  have hg : g₁ = g₂ := funext hreals
  subst hf
  subst hg
  subst hev
  subst hstart
  subst hhours
  rfl

/-- C9 witness: two syntactically different random sources with pointwise
equal streams yield identical one-hour runs. -/
theorem c9_determinism_witness :
    generate_traffic_data ⟨fun k => k + 0, fun k => (k : ℚ)⟩ [] 0 1 =
      generate_traffic_data ⟨fun k => k, fun k => (k : ℚ) + 0⟩ [] 0 1 :=
  c9_determinism ⟨fun k => k + 0, fun k => (k : ℚ)⟩ ⟨fun k => k, fun k => (k : ℚ) + 0⟩
    [] [] 0 0 1 1 (fun _ => rfl) (fun k => (add_zero (k : ℚ)).symm) rfl rfl rfl

/-- C10: save_batch fails on an empty record list (it reads the keys of
records[0]) and writes a header plus all records otherwise; the driver
only saves once the in-memory list holds at least 50000 records, so every
file a run writes was saved successfully with the fixed header and a
nonempty record list. -/
theorem c10_save :
    save_batch [] = none ∧
    (∀ (r : TrafficRecord) (l : List TrafficRecord),
      save_batch (r :: l) = some ⟨fieldNames, r :: l⟩) ∧
    ∀ (rs : RandomSource) (events : List Event) (start hours : ℕ),
      (((generate_traffic_data rs events start hours).files).all
        fun p => checkFile p.2) = true :=
  ⟨rfl, fun _ _ => rfl,
   fun rs events _ hours => runHours_check rs events hours _ rfl⟩

end NTG
